import Mathlib

/-!
Shallow embedding of the KubeVirt machine-actuator reconciliation core
(package `vm`, file with `manager.Create/Update/Delete/Exists`) and of the
KubeVirt client builder (`pkg/clients/kubevirt/client.go`).

External collaborators (the KubeVirt client's remote calls and the machine
scope's methods, whose source lives outside the reconciler file) are modelled
as oracle results carried in an environment record: each operation is a pure
function of the machine-scope construction outcome and the results the
collaborator calls would return.  Go `(*T, error)` pairs become
`Option VirtualMachine x Option GoError`, Go `nil` becoming `none`.
A nil-pointer dereference is modelled explicitly by `ExecResult.nilDeref`.
-/

namespace KubevirtProvider

/-- Go character-list helper: does `pat` occur at the head of `s`. -/
def startsWithChars : List Char → List Char → Bool
  | [], _ => true
  | _ :: _, [] => false
  | a :: as, b :: bs => a == b && startsWithChars as bs

/-- Go character-list helper: does `pat` occur anywhere inside `s`. -/
def occursInChars (pat : List Char) : List Char → Bool
  | [] => startsWithChars pat []
  | b :: bs => startsWithChars pat (b :: bs) || occursInChars pat bs

/-- Embedding of Go `strings.Contains s pat`: `pat` is a substring of `s`. -/
def strContains (s pat : String) : Bool :=
  occursInChars pat.data s.data

/-- Go `error` values as the reconciler observes them: a plain message, a
`fmt.Errorf("...: %w", e)` wrapping, or the machine controller's
`RequeueAfterError` carrying a delay in seconds. -/
inductive GoError where
  | msg (s : String)
  | wrapped (ctx : String) (e : GoError)
  | requeueAfter (seconds : Nat)
  deriving DecidableEq, Repr

/-- The `Error()` string of a `GoError` (used by the `strings.Contains`
checks on lookup errors). -/
def errMessage : GoError → String
  | .msg s => s
  | .wrapped ctx e => ctx ++ errMessage e
  | .requeueAfter d => "requeue in: " ++ toString d ++ "s"

/-- Source constants (file `vm`, `const` block): requeue delays in seconds. -/
def requeueAfterSeconds : Nat := 20

/-- Source constant `requeueAfterFatalSeconds`. -/
def requeueAfterFatalSeconds : Nat := 180

/-- The fields of the remote `kubevirtapiv1.VirtualMachine` the reconciler
reads: the optimistic-concurrency token `ObjectMeta.ResourceVersion` and the
readiness flag `Status.Ready`. -/
structure VirtualMachine where
  resourceVersion : String
  statusReady : Bool
  deriving DecidableEq, Repr

/-- Condition attached to provider status.  Modelled from the spec: the
helpers `conditionSuccess()` / `conditionFailed()` live in the machine-scope
file, which only records a tagged outcome Success or Failed with a message. -/
inductive Condition where
  | succeeded
  | failed (message : String)
  deriving DecidableEq, Repr

/-- One recorded `setProviderStatus(vm-or-nil, condition)` effect. -/
abbrev StatusSet := Option VirtualMachine × Condition

/-- The pieces of the machine scope the reconciler file reads: the rendered
VM spec (`machineScope.virtualMachine`) and the value its `updateAllowed()`
method returns.  The scope's other methods are modelled as oracle results in
the per-operation environments. -/
structure MachineScope where
  virtualMachine : VirtualMachine
  updateAllowedVal : Bool
  deriving DecidableEq, Repr

/-- Result of running a Go function body that may hit a nil-pointer
dereference (a panic) instead of returning. -/
inductive ExecResult (α : Type) where
  | ok (a : α)
  | nilDeref
  deriving DecidableEq, Repr

/-- A Go `(*VirtualMachine, error)` return value. -/
abbrev VMRes := Option VirtualMachine × Option GoError

/-- Embedding of `manager.requeueIfInstancePending`: reads `vm.Status.Ready`
through the pointer with no nil guard, so a `nil` VM is a nil dereference;
otherwise returns a 20-second `RequeueAfterError` when not ready, nil when
ready. -/
def requeueIfInstancePending (vm : Option VirtualMachine) :
    ExecResult (Option GoError) :=
  match vm with
  | none => .nilDeref
  | some v =>
    if !v.statusReady then
      .ok (some (.requeueAfter requeueAfterSeconds))
    else
      .ok none

/-- Semantics of the deferred patch block shared by Create, Update and
Delete: after the body finishes, `machineScope.patchMachine()` runs; when it
returns a non-nil error that error is assigned to the named return value
`err`, overwriting whatever the body returned.  A panic in the body still
runs the deferred patch but the panic propagates. -/
def applyDeferPatch (patchResult : Option GoError)
    (body : ExecResult (Option GoError)) : ExecResult (Option GoError) :=
  match body with
  | .nilDeref => .nilDeref
  | .ok r =>
    match patchResult with
    | some pe => .ok (some pe)
    | none => .ok r

/-- Oracle environment for one `Create` invocation. -/
structure CreateEnv where
  scopeResult : Except GoError MachineScope
  createVMResult : VMRes
  setSpecificsResult : Option GoError
  patchResult : Option GoError
  deriving Repr

/-- Observable outcome of one `Create` invocation. -/
structure CreateOut where
  result : ExecResult (Option GoError)
  patchCalls : Nat
  statusSets : List StatusSet
  deriving DecidableEq, Repr

/-- The body of `manager.Create` after the deferred patch is scheduled:
create the VM; on error set condition Failed with the error text and return
the wrapped error; otherwise set provider ID, extract cloud-provider
specifics (wrapped error on failure), set condition Success and run the
readiness check. -/
def createBody (env : CreateEnv) : ExecResult (Option GoError) × List StatusSet :=
  match env.createVMResult with
  | (_, some ce) =>
    (.ok (some (.wrapped "failed to create virtual machine: " ce)),
      [(none, .failed (errMessage ce))])
  | (vmOpt, none) =>
    match env.setSpecificsResult with
    | some se =>
      (.ok (some (.wrapped "failed to set machine cloud provider specifics: " se)), [])
    | none =>
      (requeueIfInstancePending vmOpt, [(vmOpt, .succeeded)])

/-- Embedding of `manager.Create`: scope construction failure returns that
error with no patch; otherwise the deferred patch is scheduled and fires
exactly once around the body. -/
def runCreate (env : CreateEnv) : CreateOut :=
  match env.scopeResult with
  | .error e => { result := .ok (some e), patchCalls := 0, statusSets := [] }
  | .ok _ =>
    let b := createBody env
    { result := applyDeferPatch env.patchResult b.1
      patchCalls := 1
      statusSets := b.2 }

/-- Oracle environment for one `Delete` invocation. -/
structure DeleteEnv where
  scopeResult : Except GoError MachineScope
  getVMResult : VMRes
  deleteVMResult : Option GoError
  patchResult : Option GoError
  deriving Repr

/-- Observable outcome of one `Delete` invocation; `deleteCalls` records the
grace period of each issued client delete. -/
structure DeleteOut where
  result : ExecResult (Option GoError)
  patchCalls : Nat
  deleteCalls : List Int
  deriving DecidableEq, Repr

/-- The body of `manager.Delete` after the deferred patch is scheduled:
lookup errors containing "not found" and nil-VM results are success; other
lookup errors are returned unchanged; a found VM is deleted with grace
period 10, the delete error being wrapped. -/
def deleteBody (env : DeleteEnv) : ExecResult (Option GoError) × List Int :=
  match env.getVMResult with
  | (_, some ge) =>
    if strContains (errMessage ge) "not found" then
      (.ok none, [])
    else
      (.ok (some ge), [])
  | (none, none) => (.ok none, [])
  | (some _, none) =>
    match env.deleteVMResult with
    | some de => (.ok (some (.wrapped "failed to delete VM: " de)), [10])
    | none => (.ok none, [10])

/-- Embedding of `manager.Delete`. -/
def runDelete (env : DeleteEnv) : DeleteOut :=
  match env.scopeResult with
  | .error e => { result := .ok (some e), patchCalls := 0, deleteCalls := [] }
  | .ok _ =>
    let b := deleteBody env
    { result := applyDeferPatch env.patchResult b.1
      patchCalls := 1
      deleteCalls := b.2 }

/-- Oracle environment for one `Update` invocation: first VM lookup, client
update, cloud-provider-specifics extraction, post-update re-fetch, patch. -/
structure UpdateEnv where
  scopeResult : Except GoError MachineScope
  getVMResult : VMRes
  updateVMResult : VMRes
  setSpecificsResult : Option GoError
  getVM2Result : VMRes
  patchResult : Option GoError
  deriving Repr

/-- Observable outcome of one `Update` invocation; `updateCalledWith` is the
VM spec passed to the client update call, when one was issued. -/
structure UpdateOut where
  result : ExecResult (Option GoError)
  patchCalls : Nat
  statusSets : List StatusSet
  updateCalledWith : Option VirtualMachine
  deriving DecidableEq, Repr

/-- The body of `manager.Update` after the deferred patch is scheduled:
lookup errors are returned unchanged; an absent VM yields a 20-second
requeue when `updateAllowed()` holds and otherwise clears status (condition
Success, no VM) and yields a 180-second requeue; a found VM has its
ResourceVersion copied into the rendered spec before the client update, then
provider ID and specifics are set, condition Success recorded, the VM is
re-fetched (falling back to the updated VM on re-fetch error) and the
readiness check runs. -/
def updateBody (scope : MachineScope) (env : UpdateEnv) :
    ExecResult (Option GoError) × List StatusSet × Option VirtualMachine :=
  match env.getVMResult with
  | (_, some ge) => (.ok (some ge), [], none)
  | (none, none) =>
    if scope.updateAllowedVal then
      (.ok (some (.requeueAfter requeueAfterSeconds)), [], none)
    else
      (.ok (some (.requeueAfter requeueAfterFatalSeconds)),
        [(none, .succeeded)], none)
  | (some existing, none) =>
    let sentVM : VirtualMachine :=
      { scope.virtualMachine with resourceVersion := existing.resourceVersion }
    match env.updateVMResult with
    | (_, some ue) =>
      (.ok (some (.wrapped "failed to update VM: " ue)), [], some sentVM)
    | (updVMOpt, none) =>
      match env.setSpecificsResult with
      | some se =>
        (.ok (some (.wrapped "failed to set machine cloud provider specifics: " se)),
          [], some sentVM)
      | none =>
        let getUpdatedVM :=
          match env.getVM2Result with
          | (_, some _) => updVMOpt
          | (gu, none) => gu
        (requeueIfInstancePending getUpdatedVM,
          [(updVMOpt, .succeeded)], some sentVM)

/-- Embedding of `manager.Update`. -/
def runUpdate (env : UpdateEnv) : UpdateOut :=
  match env.scopeResult with
  | .error e =>
    { result := .ok (some e), patchCalls := 0, statusSets := []
      updateCalledWith := none }
  | .ok scope =>
    let b := updateBody scope env
    { result := applyDeferPatch env.patchResult b.1
      patchCalls := 1
      statusSets := b.2.1
      updateCalledWith := b.2.2 }

/-- Oracle environment for one `Exists` invocation. -/
structure ExistsEnv where
  scopeResult : Except GoError MachineScope
  getVMResult : VMRes
  deriving Repr

/-- Embedding of `manager.Exists`: no deferred patch; a lookup error
containing "not found" and a nil VM map to `(false, nil)`, any other lookup
error to `(false, error)`, a fetched VM to `(true, nil)`. -/
def runExists (env : ExistsEnv) : Bool × Option GoError :=
  match env.scopeResult with
  | .error e => (false, some e)
  | .ok _ =>
    match env.getVMResult with
    | (_, some ge) =>
      if strContains (errMessage ge) "not found" then
        (false, none)
      else
        (false, some ge)
    | (none, none) => (false, none)
    | (some _, none) => (true, none)

/-- Error returned by the over-cluster secret lookup (`UserDataSecret`);
`notFound` models the typed `apimachineryerrors.IsNotFound` check. -/
structure LookupErr where
  notFound : Bool
  message : String
  deriving DecidableEq, Repr

/-- The data map of the credentials secret: key-to-bytes entries. -/
structure SecretData where
  entries : List (String × String)
  deriving DecidableEq, Repr

/-- Map lookup on the secret's data (Go `userDataSecret.Data[key]`). -/
def SecretData.lookup (s : SecretData) (k : String) : Option String :=
  (s.entries.find? (fun p => p.1 == k)).map (fun p => p.2)

/-- Source constant `underKubeConfig`: the expected secret key. -/
def underKubeConfig : String := "kubeconfig"

/-- Errors of the client builder `New`: the machine-api
`InvalidMachineConfiguration` kind versus any other passed-through error. -/
inductive NewError where
  | invalidConfiguration (message : String)
  | other (message : String)
  deriving DecidableEq, Repr

/-- The built client wrapper, carrying the resolved kubeconfig bytes. -/
structure ClientHandle where
  kubeconfigBytes : String
  deriving DecidableEq, Repr

/-- Oracle environment for one invocation of the client builder `New`:
its string arguments, the secret lookup result, and the outcomes of the
four local config/client construction steps (`NewClientConfigFromBytes`,
`GetKubevirtClientFromClientConfig`, `BuildConfigFromFlags`,
`NewForConfig`), none of which is a remote VM API call. -/
structure NewEnv where
  secretName : String
  nsName : String
  userDataSecret : Except LookupErr SecretData
  newClientConfigErr : Option String
  getKubevirtClientErr : Option String
  buildConfigErr : Option String
  newForConfigErr : Option String
  deriving Repr

/-- Embedding of `New` in `pkg/clients/kubevirt/client.go`: empty secret
name, empty namespace, secret not found, and missing `kubeconfig` key each
yield an `InvalidMachineConfiguration` error before any client is built;
other secret-lookup errors and the construction-step errors pass through
unchanged. -/
def clientNew (env : NewEnv) : Except NewError ClientHandle :=
  if env.secretName = "" then
    .error (.invalidConfiguration
      "KubeVirt credentials secret - Invalid empty secretName")
  else if env.nsName = "" then
    .error (.invalidConfiguration
      "KubeVirt credentials secret - Invalid empty namespace")
  else
    match env.userDataSecret with
    | .error le =>
      if le.notFound then
        .error (.invalidConfiguration
          ("KubeVirt credentials secret " ++ env.nsName ++ "/" ++
            env.secretName ++ ": " ++ le.message ++ " not found"))
      else
        .error (.other le.message)
    | .ok sd =>
      match sd.lookup underKubeConfig with
      | none =>
        .error (.invalidConfiguration
          ("KubeVirt credentials secret " ++ env.secretName ++
            " did not contain key " ++ underKubeConfig))
      | some bytes =>
        match env.newClientConfigErr with
        | some e => .error (.other e)
        | none =>
          match env.getKubevirtClientErr with
          | some e => .error (.other e)
          | none =>
            match env.buildConfigErr with
            | some e => .error (.other e)
            | none =>
              match env.newForConfigErr with
              | some e => .error (.other e)
              | none => .ok { kubeconfigBytes := bytes }

/-- A fixed machine scope used by concrete witnesses and counterexamples. -/
def scopeA : MachineScope :=
  { virtualMachine := { resourceVersion := "rv0", statusReady := false }
    updateAllowedVal := false }

/-- C1: for every invocation of Create, Update or Delete, the scope's
`patchMachine` fires exactly once when scope construction succeeds (on every
exit path: success, ordinary error, or requeue signal, the deferred block
running unconditionally) and zero times when scope construction fails. -/
theorem patch_fires_once_iff_scope_built
    (ce : CreateEnv) (de : DeleteEnv) (ue : UpdateEnv) :
    ((runCreate ce).patchCalls = match ce.scopeResult with | .ok _ => 1 | .error _ => 0)
  ∧ ((runDelete de).patchCalls = match de.scopeResult with | .ok _ => 1 | .error _ => 0)
  ∧ ((runUpdate ue).patchCalls = match ue.scopeResult with | .ok _ => 1 | .error _ => 0) := by
  refine ⟨?_, ?_, ?_⟩
  · cases h : ce.scopeResult <;> simp [runCreate, h]
  · cases h : de.scopeResult <;> simp [runDelete, h]
  · cases h : ue.scopeResult <;> simp [runUpdate, h]

/-- C2 as stated is false: in this concrete Create invocation the remote
create fails with "boom", the deferred patch fails with "patch failed", and
the operation returns the patch error, not the earlier wrapped create error
— the patch error masks the earlier error. -/
theorem patch_error_masks_earlier_error_cex :
    (runCreate { scopeResult := .ok scopeA
                 createVMResult := (none, some (.msg "boom"))
                 setSpecificsResult := none
                 patchResult := some (.msg "patch failed") }).result
      = .ok (some (.msg "patch failed"))
  ∧ (runCreate { scopeResult := .ok scopeA
                 createVMResult := (none, some (.msg "boom"))
                 setSpecificsResult := none
                 patchResult := some (.msg "patch failed") }).result
      ≠ .ok (some (.wrapped "failed to create virtual machine: " (.msg "boom"))) := by
  decide

/-- C2 amended: in Create, Update and Delete a failing deferred
`patchMachine` always becomes the operation's returned error, overwriting
any earlier error or requeue signal (last error wins) — unless the body hit
a nil dereference, which propagates; when the patch succeeds the body's
result is returned unchanged. -/
theorem patch_error_overwrites_result :
    (∀ (ce : CreateEnv) (s : MachineScope) (pe : GoError),
      ce.scopeResult = .ok s → ce.patchResult = some pe →
      (runCreate ce).result = .ok (some pe) ∨ (runCreate ce).result = .nilDeref)
  ∧ (∀ (de : DeleteEnv) (s : MachineScope) (pe : GoError),
      de.scopeResult = .ok s → de.patchResult = some pe →
      (runDelete de).result = .ok (some pe))
  ∧ (∀ (ue : UpdateEnv) (s : MachineScope) (pe : GoError),
      ue.scopeResult = .ok s → ue.patchResult = some pe →
      (runUpdate ue).result = .ok (some pe) ∨ (runUpdate ue).result = .nilDeref)
  ∧ (∀ (ce : CreateEnv) (s : MachineScope),
      ce.scopeResult = .ok s → ce.patchResult = none →
      (runCreate ce).result = (createBody ce).1)
  ∧ (∀ (de : DeleteEnv) (s : MachineScope),
      de.scopeResult = .ok s → de.patchResult = none →
      (runDelete de).result = (deleteBody de).1)
  ∧ (∀ (ue : UpdateEnv) (s : MachineScope),
      ue.scopeResult = .ok s → ue.patchResult = none →
      (runUpdate ue).result = (updateBody s ue).1) := by
  refine ⟨?_, ?_, ?_, ?_, ?_, ?_⟩
  · intro ce s pe hs hp
    cases hb : (createBody ce).1 with
    | ok r => left; simp [runCreate, hs, applyDeferPatch, hb, hp]
    | nilDeref => right; simp [runCreate, hs, applyDeferPatch, hb]
  · intro de s pe hs hp
    cases hb : (deleteBody de).1 with
    | ok r => simp [runDelete, hs, applyDeferPatch, hb, hp]
    | nilDeref =>
      exfalso
      rcases de with ⟨sr, ⟨vmOpt, geOpt⟩, dr, pr⟩
      cases geOpt with
      | some ge =>
        by_cases hnf : strContains (errMessage ge) "not found" = true <;>
          simp [deleteBody, hnf] at hb
      | none =>
        cases vmOpt with
        | none => simp [deleteBody] at hb
        | some vm => cases dr <;> simp [deleteBody] at hb
  · intro ue s pe hs hp
    cases hb : (updateBody s ue).1 with
    | ok r => left; simp [runUpdate, hs, applyDeferPatch, hb, hp]
    | nilDeref => right; simp [runUpdate, hs, applyDeferPatch, hb]
  · intro ce s hs hp
    simp [runCreate, hs, hp, applyDeferPatch]
    cases hb : (createBody ce).1 <;> simp [hb]
  · intro de s hs hp
    simp [runDelete, hs, hp, applyDeferPatch]
    cases hb : (deleteBody de).1 <;> simp [hb]
  · intro ue s hs hp
    simp [runUpdate, hs, hp, applyDeferPatch]
    cases hb : (updateBody s ue).1 <;> simp [hb]

/-- Witness for the amended C2 theorem at a concrete Delete invocation. -/
theorem patch_error_overwrites_result_witness :
    (runDelete { scopeResult := .ok scopeA, getVMResult := (none, none)
                 deleteVMResult := none, patchResult := some (.msg "p") }).result
      = .ok (some (.msg "p")) :=
  patch_error_overwrites_result.2.1 _ scopeA (.msg "p") rfl rfl

/-- C3: Exists maps a lookup error containing "not found" to `(false, nil)`,
any other lookup error to `(false, the error)`, a nil VM with no error to
`(false, nil)`, a fetched VM to `(true, nil)`, and never returns true
without a successfully fetched non-nil VM. -/
theorem exists_classification (e : ExistsEnv) (s : MachineScope)
    (hs : e.scopeResult = .ok s) :
    (∀ ge, e.getVMResult.2 = some ge →
      runExists e = (if strContains (errMessage ge) "not found" then (false, none)
                     else (false, some ge)))
  ∧ (e.getVMResult = (none, none) → runExists e = (false, none))
  ∧ (∀ vm, e.getVMResult = (some vm, none) → runExists e = (true, none))
  ∧ ((runExists e).1 = true → ∃ vm, e.getVMResult = (some vm, none)) := by
  rcases e with ⟨sr, ⟨vmOpt, geOpt⟩⟩
  simp only at hs
  subst hs
  refine ⟨?_, ?_, ?_, ?_⟩
  · intro ge hge
    simp only at hge
    subst hge
    by_cases hnf : strContains (errMessage ge) "not found" = true <;>
      simp [runExists, hnf]
  · intro h
    simp only [Prod.mk.injEq] at h
    simp [runExists, h.1, h.2]
  · intro vm h
    simp only [Prod.mk.injEq] at h
    simp [runExists, h.1, h.2]
  · intro h
    cases geOpt with
    | some ge =>
      exfalso
      by_cases hnf : strContains (errMessage ge) "not found" = true <;>
        simp [runExists, hnf] at h
    | none =>
      cases vmOpt with
      | none => simp [runExists] at h
      | some vm => exact ⟨vm, rfl⟩

/-- Witness for C3 at concrete inputs: a "not found" lookup error yields
`(false, nil)`; a fetched VM yields `(true, nil)`. -/
theorem exists_classification_witness :
    runExists { scopeResult := .ok scopeA
                getVMResult := (none, some (.msg "the vm was not found")) }
      = (false, none)
  ∧ runExists { scopeResult := .ok scopeA
                getVMResult := (some scopeA.virtualMachine, none) }
      = (true, none) := by
  constructor
  · have h := (exists_classification
      { scopeResult := .ok scopeA
        getVMResult := (none, some (.msg "the vm was not found")) } scopeA rfl).1
      (.msg "the vm was not found") rfl
    rw [h]
    decide
  · exact (exists_classification
      { scopeResult := .ok scopeA
        getVMResult := (some scopeA.virtualMachine, none) } scopeA rfl).2.2.1
      scopeA.virtualMachine rfl

/-- C4: Delete is idempotent to absence — a "not found" lookup error or a
nil VM with no error returns nil without issuing a client delete; any other
lookup error is returned unchanged; a found VM is deleted with the fixed
grace period 10, returning nil on success and the wrapped delete error on
failure. -/
theorem delete_idempotent_absence (e : DeleteEnv) (s : MachineScope)
    (hs : e.scopeResult = .ok s) (hp : e.patchResult = none) :
    (∀ ge, e.getVMResult.2 = some ge →
      (runDelete e).result = (if strContains (errMessage ge) "not found" then .ok none
                              else .ok (some ge))
      ∧ (runDelete e).deleteCalls = [])
  ∧ (e.getVMResult = (none, none) →
      (runDelete e).result = .ok none ∧ (runDelete e).deleteCalls = [])
  ∧ (∀ vm, e.getVMResult = (some vm, none) →
      (runDelete e).deleteCalls = [10]
      ∧ (e.deleteVMResult = none → (runDelete e).result = .ok none)
      ∧ (∀ de, e.deleteVMResult = some de →
          (runDelete e).result = .ok (some (.wrapped "failed to delete VM: " de)))) := by
  rcases e with ⟨sr, ⟨vmOpt, geOpt⟩, dr, pr⟩
  simp only at hs hp
  subst hs; subst hp
  refine ⟨?_, ?_, ?_⟩
  · intro ge hge
    simp only at hge
    subst hge
    by_cases hnf : strContains (errMessage ge) "not found" = true <;>
      simp [runDelete, deleteBody, applyDeferPatch, hnf]
  · intro h
    simp only [Prod.mk.injEq] at h
    simp [runDelete, deleteBody, applyDeferPatch, h.1, h.2]
  · intro vm h
    simp only [Prod.mk.injEq] at h
    obtain ⟨h1, h2⟩ := h
    subst h1; subst h2
    refine ⟨?_, ?_, ?_⟩
    · cases dr <;> simp [runDelete, deleteBody, applyDeferPatch]
    · intro hd
      simp only at hd
      subst hd
      simp [runDelete, deleteBody, applyDeferPatch]
    · intro de hd
      simp only at hd
      subst hd
      simp [runDelete, deleteBody, applyDeferPatch]

/-- Witness for C4: a "not found" lookup error yields nil with no delete
issued; a found VM is deleted with grace period 10 and Delete returns nil. -/
theorem delete_idempotent_absence_witness :
    (runDelete { scopeResult := .ok scopeA
                 getVMResult := (none, some (.msg "vm abc not found"))
                 deleteVMResult := none, patchResult := none }).result = .ok none
  ∧ (runDelete { scopeResult := .ok scopeA
                 getVMResult := (some scopeA.virtualMachine, none)
                 deleteVMResult := none, patchResult := none }).deleteCalls = [10]
  ∧ (runDelete { scopeResult := .ok scopeA
                 getVMResult := (some scopeA.virtualMachine, none)
                 deleteVMResult := none, patchResult := none }).result = .ok none := by
  refine ⟨?_, ?_, ?_⟩
  · have h := ((delete_idempotent_absence
      { scopeResult := .ok scopeA
        getVMResult := (none, some (.msg "vm abc not found"))
        deleteVMResult := none, patchResult := none } scopeA rfl rfl).1
      (.msg "vm abc not found") rfl).1
    rw [h]
    decide
  · exact ((delete_idempotent_absence
      { scopeResult := .ok scopeA
        getVMResult := (some scopeA.virtualMachine, none)
        deleteVMResult := none, patchResult := none } scopeA rfl rfl).2.2
      scopeA.virtualMachine rfl).1
  · exact (((delete_idempotent_absence
      { scopeResult := .ok scopeA
        getVMResult := (some scopeA.virtualMachine, none)
        deleteVMResult := none, patchResult := none } scopeA rfl rfl).2.2
      scopeA.virtualMachine rfl).2.1) rfl

/-- C5: the readiness-to-requeue rule shared by Create and Update — after an
otherwise-successful remote call (and a successful patch), a VM whose
readiness flag is false yields a requeue-after signal with the fixed
20-second delay, and a ready VM yields nil. -/
theorem readiness_requeue_rule :
    requeueAfterSeconds = 20
  ∧ (∀ (ce : CreateEnv) (s : MachineScope) (vm : VirtualMachine),
      ce.scopeResult = .ok s → ce.createVMResult = (some vm, none) →
      ce.setSpecificsResult = none → ce.patchResult = none →
      (runCreate ce).result =
        (if vm.statusReady then .ok none
         else .ok (some (.requeueAfter requeueAfterSeconds))))
  ∧ (∀ (ue : UpdateEnv) (s : MachineScope) (ex uvm gvm : VirtualMachine),
      ue.scopeResult = .ok s → ue.getVMResult = (some ex, none) →
      ue.updateVMResult = (some uvm, none) → ue.setSpecificsResult = none →
      ue.getVM2Result = (some gvm, none) → ue.patchResult = none →
      (runUpdate ue).result =
        (if gvm.statusReady then .ok none
         else .ok (some (.requeueAfter requeueAfterSeconds)))) := by
  refine ⟨rfl, ?_, ?_⟩
  · intro ce s vm hs hc hsp hp
    cases hr : vm.statusReady <;>
      simp [runCreate, createBody, applyDeferPatch, requeueIfInstancePending,
        hs, hc, hsp, hp, hr]
  · intro ue s ex uvm gvm hs hg hu hsp h2 hp
    cases hr : gvm.statusReady <;>
      simp [runUpdate, updateBody, applyDeferPatch, requeueIfInstancePending,
        hs, hg, hu, hsp, h2, hp, hr]

/-- Witness for C5: a not-ready created VM yields the 20-second requeue; a
ready VM yields nil. -/
theorem readiness_requeue_rule_witness :
    (runCreate { scopeResult := .ok scopeA
                 createVMResult := (some { resourceVersion := "r", statusReady := false }, none)
                 setSpecificsResult := none, patchResult := none }).result
      = .ok (some (.requeueAfter 20))
  ∧ (runCreate { scopeResult := .ok scopeA
                 createVMResult := (some { resourceVersion := "r", statusReady := true }, none)
                 setSpecificsResult := none, patchResult := none }).result
      = .ok none := by
  constructor
  · have h := readiness_requeue_rule.2.1
      { scopeResult := .ok scopeA
        createVMResult := (some { resourceVersion := "r", statusReady := false }, none)
        setSpecificsResult := none, patchResult := none } scopeA
      { resourceVersion := "r", statusReady := false } rfl rfl rfl rfl
    rw [h]
    rfl
  · have h := readiness_requeue_rule.2.1
      { scopeResult := .ok scopeA
        createVMResult := (some { resourceVersion := "r", statusReady := true }, none)
        setSpecificsResult := none, patchResult := none } scopeA
      { resourceVersion := "r", statusReady := true } rfl rfl rfl rfl
    rw [h]
    rfl

/-- C6: Update on a successful lookup that returns an absent (nil) VM — when
the update-allowed predicate holds it returns the 20-second requeue signal
and records no status change; otherwise it sets provider status to no VM
with condition Success and returns the 180-second requeue signal. -/
theorem update_absent_vm_requeue (ue : UpdateEnv) (s : MachineScope)
    (hs : ue.scopeResult = .ok s) (hg : ue.getVMResult = (none, none))
    (hp : ue.patchResult = none) :
    requeueAfterSeconds = 20 ∧ requeueAfterFatalSeconds = 180
  ∧ (s.updateAllowedVal = true →
      (runUpdate ue).result = .ok (some (.requeueAfter requeueAfterSeconds))
      ∧ (runUpdate ue).statusSets = [])
  ∧ (s.updateAllowedVal = false →
      (runUpdate ue).result = .ok (some (.requeueAfter requeueAfterFatalSeconds))
      ∧ (runUpdate ue).statusSets = [(none, Condition.succeeded)]) := by
  refine ⟨rfl, rfl, ?_, ?_⟩ <;>
    intro ha <;>
    constructor <;>
    simp [runUpdate, updateBody, applyDeferPatch, hs, hg, hp, ha]

/-- Witness for C6 with the update-allowed predicate false (the source's
stubbed value): the long 180-second requeue with cleared status. -/
theorem update_absent_vm_requeue_witness :
    (runUpdate { scopeResult := .ok scopeA, getVMResult := (none, none)
                 updateVMResult := (none, none), setSpecificsResult := none
                 getVM2Result := (none, none), patchResult := none }).result
      = .ok (some (.requeueAfter 180))
  ∧ (runUpdate { scopeResult := .ok scopeA, getVMResult := (none, none)
                 updateVMResult := (none, none), setSpecificsResult := none
                 getVM2Result := (none, none), patchResult := none }).statusSets
      = [(none, Condition.succeeded)] :=
  (update_absent_vm_requeue
    { scopeResult := .ok scopeA, getVMResult := (none, none)
      updateVMResult := (none, none), setSpecificsResult := none
      getVM2Result := (none, none), patchResult := none } scopeA
    rfl rfl rfl).2.2.2 rfl

/-- C7: whenever Update finds an existing VM, the VM spec passed to the
client update call is the scope's rendered spec with the existing VM's
ResourceVersion copied in. -/
theorem update_carries_resource_version (ue : UpdateEnv) (s : MachineScope)
    (ex : VirtualMachine) (hs : ue.scopeResult = .ok s)
    (hg : ue.getVMResult = (some ex, none)) :
    (runUpdate ue).updateCalledWith =
      some { s.virtualMachine with resourceVersion := ex.resourceVersion } := by
  rcases ue with ⟨sr, gr, ⟨uvmOpt, ueOpt⟩, sp, g2, pr⟩
  simp only at hs hg
  subst hs; subst hg
  cases ueOpt with
  | some e => simp [runUpdate, updateBody]
  | none =>
    cases sp with
    | some e => simp [runUpdate, updateBody]
    | none => simp [runUpdate, updateBody]

/-- Witness for C7: the update call carries ResourceVersion "rv9" observed
at lookup time, not the rendered spec's original "rv0". -/
theorem update_carries_resource_version_witness :
    (runUpdate { scopeResult := .ok scopeA
                 getVMResult := (some { resourceVersion := "rv9", statusReady := true }, none)
                 updateVMResult := (none, some (.msg "conflict"))
                 setSpecificsResult := none, getVM2Result := (none, none)
                 patchResult := none }).updateCalledWith
      = some { resourceVersion := "rv9", statusReady := false } :=
  update_carries_resource_version
    { scopeResult := .ok scopeA
      getVMResult := (some { resourceVersion := "rv9", statusReady := true }, none)
      updateVMResult := (none, some (.msg "conflict"))
      setSpecificsResult := none, getVM2Result := (none, none)
      patchResult := none } scopeA
    { resourceVersion := "rv9", statusReady := true } rfl rfl

/-- C8: the client builder New returns an InvalidConfiguration error (hence
no client) exactly when the secret name is empty, the namespace is empty,
the secret lookup reports not-found, or the fetched secret lacks the
"kubeconfig" key; every other outcome is either a passed-through
non-configuration error or a built client.  The model issues no remote VM
API call anywhere in New: its only external interaction is the secret
lookup, and the four configuration errors short-circuit construction. -/
theorem client_new_invalid_configuration (env : NewEnv) :
    (∃ m, clientNew env = .error (.invalidConfiguration m)) ↔
      (env.secretName = "" ∨ env.nsName = ""
        ∨ (∃ le, env.userDataSecret = .error le ∧ le.notFound = true)
        ∨ (∃ sd, env.userDataSecret = .ok sd ∧ sd.lookup underKubeConfig = none)) := by
  rcases env with ⟨sn, nsn, uds, e1, e2, e3, e4⟩
  by_cases h1 : sn = ""
  · simp [clientNew, h1]
  · by_cases h2 : nsn = ""
    · simp [clientNew, h1, h2]
    · cases uds with
      | error le =>
        cases hle : le.notFound <;> simp [clientNew, h1, h2, hle]
      | ok sd =>
        cases hk : sd.lookup underKubeConfig with
        | none => simp [clientNew, h1, h2, hk]
        | some bytes =>
          cases e1 <;> cases e2 <;> cases e3 <;> cases e4 <;>
            simp [clientNew, h1, h2, hk]

/-- C9: Delete and Exists classify a lookup error as "VM absent" exactly
when its message contains the substring "not found", while Update performs
no such classification: it returns every lookup error unchanged, records no
status change and issues no client update, so even a not-found lookup error
makes Update fail rather than enter its absent-VM handling. -/
theorem not_found_string_classification :
    (∀ (de : DeleteEnv) (s : MachineScope) (ge : GoError),
      de.scopeResult = .ok s → de.getVMResult.2 = some ge → de.patchResult = none →
      (runDelete de).result =
        (if strContains (errMessage ge) "not found" then .ok none else .ok (some ge)))
  ∧ (∀ (ee : ExistsEnv) (s : MachineScope) (ge : GoError),
      ee.scopeResult = .ok s → ee.getVMResult.2 = some ge →
      runExists ee =
        (if strContains (errMessage ge) "not found" then (false, none)
         else (false, some ge)))
  ∧ (∀ (ue : UpdateEnv) (s : MachineScope) (ge : GoError),
      ue.scopeResult = .ok s → ue.getVMResult.2 = some ge → ue.patchResult = none →
      (runUpdate ue).result = .ok (some ge)
      ∧ (runUpdate ue).statusSets = []
      ∧ (runUpdate ue).updateCalledWith = none) := by
  refine ⟨?_, ?_, ?_⟩
  · intro de s ge hs hg hp
    rcases de with ⟨sr, ⟨vmOpt, geOpt⟩, dr, pr⟩
    simp only at hs hg hp
    subst hs; subst hg; subst hp
    by_cases hnf : strContains (errMessage ge) "not found" = true <;>
      simp [runDelete, deleteBody, applyDeferPatch, hnf]
  · intro ee s ge hs hg
    rcases ee with ⟨sr, ⟨vmOpt, geOpt⟩⟩
    simp only at hs hg
    subst hs; subst hg
    by_cases hnf : strContains (errMessage ge) "not found" = true <;>
      simp [runExists, hnf]
  · intro ue s ge hs hg hp
    rcases ue with ⟨sr, ⟨vmOpt, geOpt⟩, ur, sp, g2, pr⟩
    simp only at hs hg hp
    subst hs; subst hg; subst hp
    refine ⟨?_, ?_, ?_⟩ <;> simp [runUpdate, updateBody, applyDeferPatch]

/-- Witness for C9: the same not-found-worded lookup error makes Delete
succeed but makes Update return that error unchanged. -/
theorem not_found_string_classification_witness :
    (runDelete { scopeResult := .ok scopeA
                 getVMResult := (none, some (.msg "vm xyz not found"))
                 deleteVMResult := none, patchResult := none }).result = .ok none
  ∧ (runUpdate { scopeResult := .ok scopeA
                 getVMResult := (none, some (.msg "vm xyz not found"))
                 updateVMResult := (none, none), setSpecificsResult := none
                 getVM2Result := (none, none), patchResult := none }).result
      = .ok (some (.msg "vm xyz not found")) := by
  constructor
  · have h := not_found_string_classification.1
      { scopeResult := .ok scopeA
        getVMResult := (none, some (.msg "vm xyz not found"))
        deleteVMResult := none, patchResult := none } scopeA
      (.msg "vm xyz not found") rfl rfl rfl
    rw [h]
    decide
  · exact (not_found_string_classification.2.2
      { scopeResult := .ok scopeA
        getVMResult := (none, some (.msg "vm xyz not found"))
        updateVMResult := (none, none), setSpecificsResult := none
        getVM2Result := (none, none), patchResult := none } scopeA
      (.msg "vm xyz not found") rfl rfl rfl).1

/-- C10 as stated is false: in this concrete Update invocation the client
update returns a non-nil VM with a nil error (so the stated hypothesis on
CreateVirtualMachine/UpdateVirtualMachine holds), yet the readiness
evaluation still dereferences a nil pointer, because the post-update
re-fetch returned (nil, nil) and is the VM actually dereferenced. -/
theorem update_nil_deref_despite_nonnil_update_cex :
    ({ scopeResult := .ok scopeA
       getVMResult := (some { resourceVersion := "5", statusReady := true }, none)
       updateVMResult := (some { resourceVersion := "6", statusReady := true }, none)
       setSpecificsResult := none
       getVM2Result := (none, none)
       patchResult := none : UpdateEnv }).updateVMResult
      = (some { resourceVersion := "6", statusReady := true }, none)
  ∧ (runUpdate { scopeResult := .ok scopeA
                 getVMResult := (some { resourceVersion := "5", statusReady := true }, none)
                 updateVMResult := (some { resourceVersion := "6", statusReady := true }, none)
                 setSpecificsResult := none
                 getVM2Result := (none, none)
                 patchResult := none }).result = ExecResult.nilDeref := by
  constructor
  · rfl
  · rfl

/-- C10 amended: the readiness evaluation dereferences its VM pointer with
no nil guard (`requeueIfInstancePending nil` is a nil dereference); Create
never dereferences nil provided CreateVirtualMachine returns a non-nil VM
whenever its error is nil, while Update needs that hypothesis both for
UpdateVirtualMachine and for the post-update re-fetch GetVirtualMachine,
whose (nil, nil) result is dereferenced even when the update call behaved. -/
theorem nil_deref_safety_amended :
    requeueIfInstancePending none = ExecResult.nilDeref
  ∧ (∀ ce : CreateEnv,
      (ce.createVMResult.2 = none → (ce.createVMResult.1).isSome = true) →
      (runCreate ce).result ≠ ExecResult.nilDeref)
  ∧ (∀ ue : UpdateEnv,
      (ue.updateVMResult.2 = none → (ue.updateVMResult.1).isSome = true) →
      (ue.getVM2Result.2 = none → (ue.getVM2Result.1).isSome = true) →
      (runUpdate ue).result ≠ ExecResult.nilDeref) := by
  refine ⟨rfl, ?_, ?_⟩
  · intro ce hc
    rcases ce with ⟨sr, ⟨vmOpt, ceOpt⟩, sp, pr⟩
    cases sr with
    | error e => simp [runCreate]
    | ok s =>
      cases ceOpt with
      | some e => cases pr <;> simp [runCreate, createBody, applyDeferPatch]
      | none =>
        simp only at hc
        cases vmOpt with
        | none => simp at hc
        | some vm =>
          cases sp with
          | some e => cases pr <;> simp [runCreate, createBody, applyDeferPatch]
          | none =>
            cases hr : vm.statusReady <;> cases pr <;>
              simp [runCreate, createBody, applyDeferPatch,
                requeueIfInstancePending, hr]
  · intro ue hu h2
    rcases ue with ⟨sr, ⟨gvmOpt, geOpt⟩, ⟨uvmOpt, ueOpt⟩, sp, ⟨g2vmOpt, g2eOpt⟩, pr⟩
    cases sr with
    | error e => simp [runUpdate]
    | ok s =>
      cases geOpt with
      | some ge => cases pr <;> simp [runUpdate, updateBody, applyDeferPatch]
      | none =>
        cases gvmOpt with
        | none =>
          cases ha : s.updateAllowedVal <;> cases pr <;>
            simp [runUpdate, updateBody, applyDeferPatch, ha]
        | some existing =>
          cases ueOpt with
          | some e => cases pr <;> simp [runUpdate, updateBody, applyDeferPatch]
          | none =>
            simp only at hu
            cases uvmOpt with
            | none => simp at hu
            | some uvm =>
              cases sp with
              | some e => cases pr <;> simp [runUpdate, updateBody, applyDeferPatch]
              | none =>
                cases g2eOpt with
                | some e =>
                  cases hr : uvm.statusReady <;> cases pr <;>
                    simp [runUpdate, updateBody, applyDeferPatch,
                      requeueIfInstancePending, hr]
                | none =>
                  simp only at h2
                  cases g2vmOpt with
                  | none => simp at h2
                  | some gvm =>
                    cases hr : gvm.statusReady <;> cases pr <;>
                      simp [runUpdate, updateBody, applyDeferPatch,
                        requeueIfInstancePending, hr]

/-- Witness for the amended C10 theorem at a concrete Create invocation
whose create call returns a ready VM. -/
theorem nil_deref_safety_amended_witness :
    (runCreate { scopeResult := .ok scopeA
                 createVMResult := (some { resourceVersion := "r", statusReady := true }, none)
                 setSpecificsResult := none, patchResult := none }).result
      ≠ ExecResult.nilDeref :=
  nil_deref_safety_amended.2.1
    { scopeResult := .ok scopeA
      createVMResult := (some { resourceVersion := "r", statusReady := true }, none)
      setSpecificsResult := none, patchResult := none }
    (fun _ => rfl)

end KubevirtProvider
